import Mathlib

/-!
A shallow embedding of `nadlogar/problems/models/meta.py`.

The Python module defines:
* `_Template`, a `string.Template` subclass with delimiter `@`, used to
  substitute generated data into instruction/solution templates;
* `ProblemText`, a stored template (instruction/solution strings) together
  with the content type of the problem kind it belongs to;
* `GeneratedDataIncorrect`, the control-flow exception a generator raises to
  reject its own random draw;
* `Problem`, the abstract parent model: seeded data generation with a retry
  loop (`_generate_data`), template resolution (`default_text`,
  `_render_text`), the public text operations (`example_text`,
  `student_text`), validation (`clean`, `save`) and duplication (`copy`).

Machine-level conventions of the embedding:
* the global pseudo-random source `random` is threaded explicitly as a state
  of type `RNG` (a natural number); `random.seed(s)` becomes a deterministic
  hash of the seed string; a kind's `generate` method is a pure function
  `RNG → Option Datum × RNG` where `none` models raising
  `GeneratedDataIncorrect`;
* the unbounded `while True` retry loop is modelled with explicit fuel: a
  result of `none` means the loop was still retrying when the fuel ran out;
* Python exceptions escaping a render call become the `Except RenderError`
  monad, and Django's `ValidationError` becomes `Except ValidationError`;
* generated values are stored already stringified (Python applies `str()`
  during substitution, which is the identity on strings).
-/

namespace Nadlogar

/-- Problem data produced by one call of a kind's `generate` method: a
mapping from placeholder names to (stringified) values. -/
abbrev Datum := List (String × String)

/-- Errors that can escape a render call.  `noTemplate` models the
`TypeError` raised by `string.Template` when the template string is `None`
(the kind provides no default and the entity no override);
`invalidPlaceholder` models the `ValueError` ("Invalid placeholder in
string") raised by `Template.substitute` on a delimiter not followed by a
valid placeholder; `missingPlaceholder name` models the `KeyError` raised
when placeholder `name` has no matching key in the supplied datum. -/
inductive RenderError where
  | noTemplate : RenderError
  | invalidPlaceholder : RenderError
  | missingPlaceholder : String → RenderError
deriving DecidableEq

/-- First character of an identifier, as matched by `string.Template`'s
default ASCII id pattern `[_a-z][_a-z0-9]*` under `IGNORECASE`. -/
def isIdStart (c : Char) : Bool := c.isAlpha || c == '_'

/-- A non-initial identifier character. -/
def isIdChar (c : Char) : Bool := c.isAlphanum || c == '_'

/-- The opening curly brace character (of the braced `@` form). -/
def braceOpen : Char := Char.ofNat 123

/-- The closing curly brace character. -/
def braceClose : Char := Char.ofNat 125

/-- Greedily consume identifier characters: the maximal munch performed by
the regex `[_a-z0-9]*` part of the placeholder pattern.  Returns the
consumed characters and the remainder. -/
def munchId : List Char → List Char × List Char
  | [] => ([], [])
  | c :: cs =>
      if isIdChar c then
        let p := munchId cs
        (c :: p.1, p.2)
      else ([], c :: cs)

/-- The scan of `string.Template.substitute` with delimiter `@`, fuelled
so that it is structurally recursive (one unit of fuel per character is
enough, since every step consumes at least one character): `@@` yields a
literal `@`; `@name` and the braced form are replaced by the value bound
to `name`, failing with `missingPlaceholder` when unbound; any other
occurrence of `@` fails with `invalidPlaceholder`; characters outside
matches pass through unchanged. -/
def substAux (data : Datum) : Nat → List Char → Except RenderError (List Char)
  | _, [] => .ok []
  | 0, _ :: _ => .error .invalidPlaceholder
  | fuel + 1, c :: cs =>
      if c = '@' then
        match cs with
        | [] => .error .invalidPlaceholder
        | d :: rest =>
            if d = '@' then
              (substAux data fuel rest).map (fun t => '@' :: t)
            else if d = braceOpen then
              match (munchId rest).1, (munchId rest).2 with
              | e :: es, b :: rest2 =>
                  if isIdStart e = true ∧ b = braceClose then
                    match data.lookup (String.mk (e :: es)) with
                    | some v => (substAux data fuel rest2).map (fun t => v.data ++ t)
                    | none => .error (.missingPlaceholder (String.mk (e :: es)))
                  else .error .invalidPlaceholder
              | _, _ => .error .invalidPlaceholder
            else if isIdStart d = true then
              match data.lookup (String.mk (d :: (munchId rest).1)) with
              | some v => (substAux data fuel ((munchId rest).2)).map (fun t => v.data ++ t)
              | none => .error (.missingPlaceholder (String.mk (d :: (munchId rest).1)))
            else .error .invalidPlaceholder
      else
        (substAux data fuel cs).map (fun t => c :: t)

/-- The substitution performed by `_Template(s).substitute(**datum)` on a
character list: the fuelled scan with just enough fuel. -/
def substList (data : Datum) (l : List Char) : Except RenderError (List Char) :=
  substAux data l.length l

/-- Substitution lifted to strings. -/
def substituteStr (data : Datum) (s : String) : Except RenderError String :=
  (substList data s.data).map String.mk

deriving instance DecidableEq for Except

/-- Does the scan stop munching at this list, i.e. is its head (when any)
not an identifier character? -/
def headNotIdChar : List Char → Bool
  | [] => true
  | c :: _ => !(isIdChar c)

/-- A valid placeholder identifier: `[_a-z][_a-z0-9]*` under IGNORECASE. -/
def isValidIdent (name : String) : Bool :=
  match name.data with
  | [] => false
  | c :: cs => isIdStart c && cs.all isIdChar

/-- `_Template(t).substitute` where the template string may be Python
`None` (a kind without a default text): substituting into `None` raises a
`TypeError`, modelled as `noTemplate`. -/
def substituteOpt (data : Datum) : Option String → Except RenderError String
  | none => .error .noTemplate
  | some s => substituteStr data s

/-- The concrete runtime class of a problem instance: either the abstract
parent class `Problem` itself or one of its kind subclasses, identified by
name.  Django's `ContentType` table has exactly one entry per model class,
so content types are modelled by the same type, with
`ContentType.objects.get_for_model` the identity embedding. -/
inductive RuntimeClass where
  | base : RuntimeClass
  | kind : String → RuntimeClass
deriving DecidableEq

/-- The content type recorded for a model class
(`ContentType.objects.get_for_model`). -/
def getForModel (c : RuntimeClass) : RuntimeClass := c

/-- One rendered subproblem: the dictionary
`{"instruction": ..., "solution": ...}` built by `ProblemText.render`. -/
structure RenderedText where
  instruction : String
  solution : String
deriving DecidableEq

/-- The `ProblemText` model: templates for instructions and solutions of a
given problem kind.  The fields are `Option String` because the object
built by `Problem.default_text` carries the kind's class attributes
`default_instruction` / `default_solution`, which are `None` on kinds that
do not override them. -/
structure ProblemText where
  content_type : RuntimeClass
  instruction : Option String
  solution : Option String
deriving DecidableEq

/-- `ProblemText.render`: substitute each datum of the list into the
instruction and solution templates, in order; the first exception raised by
a substitution aborts the whole call. -/
def ProblemText.render (t : ProblemText) : List Datum → Except RenderError (List RenderedText)
  | [] => .ok []
  | datum :: rest =>
      match substituteOpt datum t.instruction with
      | .error e => .error e
      | .ok instr =>
          match substituteOpt datum t.solution with
          | .error e => .error e
          | .ok sol =>
              match ProblemText.render t rest with
              | .error e => .error e
              | .ok tail => .ok ({ instruction := instr, solution := sol } :: tail)

/-- The state of Python's global `random` module, threaded explicitly.
Only two facts about it matter to the claims: `random.seed` makes it a
deterministic function of the seed string, and each draw advances it. -/
abbrev RNG := Nat

/-- `random.seed(s)` for a string `s`: the new state is a deterministic
hash of the string (CPython hashes the bytes; the particular hash is
irrelevant to every claim). -/
def seedOfString (s : String) : RNG :=
  s.data.foldl (fun h c => (h * 31 + c.toNat) % 1000000007) 7

/-- Python `str()` on an optional string (`str(None) = "None"`), used when
the seed argument is interpolated into an f-string. -/
def pyStrOfOption : Option String → String
  | none => "None"
  | some s => s

/-- Python `str()` on an optional integer id (`str(None) = "None"`). -/
def pyStrOfOptNat : Option Nat → String
  | none => "None"
  | some n => toString n

/-- The per-subproblem seed string `f"{i}-{seed}"` of `_generate_data`.
Note that a `None` seed (example mode) is interpolated as the literal
string `"None"`. -/
def subproblemSeed (i : Nat) (seed : Option String) : String :=
  toString i ++ "-" ++ pyStrOfOption seed

/-- A kind's `generate` method as a pure function of the random source:
it consumes random state and either returns a datum or rejects the draw by
raising `GeneratedDataIncorrect` (modelled as `none`), in both cases
leaving the random source in a new state. -/
abbrev Generator := RNG → Option Datum × RNG

/-- The `while True` retry loop of `_generate_data`: call `generate`
repeatedly, without re-seeding, until it stops raising
`GeneratedDataIncorrect`.  The Python loop is unbounded, so it is modelled
with fuel: `none` means the generator was still rejecting after `fuel`
attempts (the Python call would still be running). -/
def retryLoop (gen : Generator) : Nat → RNG → Option Datum × RNG
  | 0, r => (none, r)
  | fuel + 1, r =>
      match gen r with
      | (some d, r2) => (some d, r2)
      | (none, r2) => retryLoop gen fuel r2

/-- The loop of `_generate_data` over subproblem indices: for each index
`i` it first re-seeds the random source with `f"{i}-{seed}"` and then runs
the retry loop, appending the datum produced for slot `i`. -/
def genDataLoop (gen : Generator) (seed : Option String) (fuel : Nat) :
    Nat → Nat → RNG → Option (List Datum) × RNG
  | 0, _, r => (some [], r)
  | count + 1, i, _ =>
      let r1 := seedOfString (subproblemSeed i seed)
      match retryLoop gen fuel r1 with
      | (some d, r2) =>
          match genDataLoop gen seed fuel count (i + 1) r2 with
          | (some ds, r3) => (some (d :: ds), r3)
          | (none, r3) => (none, r3)
      | (none, r2) => (none, r2)

/-- The `Problem` model.  Common columns (`document`, `content_type`,
`text`, `number_of_subproblems`) are the parent-table fields; the record
additionally carries what in Python lives on the concrete subclass: its
runtime class, its `default_instruction` / `default_solution` class
attributes, and its `generate` method. -/
structure Problem where
  runtimeClass : RuntimeClass
  id : Option Nat
  document : Nat
  content_type : RuntimeClass
  text : Option ProblemText
  number_of_subproblems : Nat
  default_instruction : Option String
  default_solution : Option String
  generate : Generator

/-- An opaque student reference: only its id is used, as seed material. -/
structure Student where
  id : Option Nat

/-- `Problem._generate_data(seed)`: produce one datum per subproblem,
re-seeding the random source per subproblem index, retrying on rejected
draws.  The incoming `RNG` is the state of the global random source before
the call; the returned `RNG` its state afterwards. -/
def Problem.generate_data (p : Problem) (seed : Option String) (fuel : Nat) (r : RNG) :
    Option (List Datum) × RNG :=
  genDataLoop p.generate seed fuel p.number_of_subproblems 0 r

/-- `Problem.default_text()`: a `ProblemText` built from the kind's class
attributes, with the kind's own content type. -/
def Problem.default_text (p : Problem) : ProblemText :=
  { content_type := getForModel p.runtimeClass
  , instruction := p.default_instruction
  , solution := p.default_solution }

/-- `Problem._render_text(data)`: render with the entity's override text
when one is set, else with the kind's default text. -/
def Problem.render_text (p : Problem) (data : List Datum) :
    Except RenderError (List RenderedText) :=
  match p.text with
  | none => p.default_text.render data
  | some t => t.render data

/-- `Problem.example_data()`: generation with seed `None`. -/
def Problem.example_data (p : Problem) (fuel : Nat) (r : RNG) :
    Option (List Datum) × RNG :=
  p.generate_data none fuel r

/-- `Problem.example_text()`: example-mode generation, then rendering. -/
def Problem.example_text (p : Problem) (fuel : Nat) (r : RNG) :
    Option (Except RenderError (List RenderedText)) × RNG :=
  let res := p.example_data fuel r
  (res.1.map (fun data => p.render_text data), res.2)

/-- The seed string `f"{self.id}-{student.id}"` of `student_text`. -/
def Problem.student_seed (p : Problem) (student : Student) : String :=
  pyStrOfOptNat p.id ++ "-" ++ pyStrOfOptNat student.id

/-- `Problem.student_text(student)`: generation seeded from the entity and
student ids, then rendering. -/
def Problem.student_text (p : Problem) (student : Student) (fuel : Nat) (r : RNG) :
    Option (Except RenderError (List RenderedText)) × RNG :=
  let res := p.generate_data (some (p.student_seed student)) fuel r
  (res.1.map (fun data => p.render_text data), res.2)

/-- Django's `ValidationError`, carrying its message. -/
structure ValidationError where
  message : String
deriving DecidableEq

/-- `Problem.clean()`: reject an instance of the abstract parent class,
recompute the content type from the runtime class, and reject a text
override whose content type differs from the recomputed one. -/
def Problem.clean (p : Problem) : Except ValidationError Problem :=
  if p.runtimeClass = RuntimeClass.base then
    .error { message := "Problems must have a non-trivial generator" }
  else
    let p2 := { p with content_type := getForModel p.runtimeClass }
    match p2.text with
    | some t =>
        if p2.content_type ≠ t.content_type then
          .error { message := "Generators of the problem and its text must match" }
        else .ok p2
    | none => .ok p2

/-- The parent problem table, with the id the next insert will receive. -/
structure Database where
  rows : List Problem
  nextId : Nat

/-- `Problem.save()`: set the content type from the runtime class, then
persist — an insert assigning the next fresh id when the instance has no
primary key, an update of the matching row otherwise. -/
def Problem.save (p : Problem) (db : Database) : Database × Problem :=
  let p2 := { p with content_type := getForModel p.runtimeClass }
  match p2.id with
  | none =>
      let p3 := { p2 with id := some db.nextId }
      ({ rows := db.rows ++ [p3], nextId := db.nextId + 1 }, p3)
  | some i =>
      ({ db with rows := db.rows.map (fun q => if q.id = some i then p2 else q) }, p2)

/-- `Problem.downcast()`: convert an instance to its concrete child class.
A record of the embedding already carries every child field, so fetching
the child row amounts to setting the runtime class to the stored content
type; when the two already agree the instance is returned unchanged. -/
def Problem.downcast (p : Problem) : Problem :=
  if p.content_type = getForModel p.runtimeClass then p
  else { p with runtimeClass := p.content_type }

/-- `Problem.copy(document)`: downcast, attach to the target document,
clear the primary key and save, which inserts an independent new row. -/
def Problem.copy (p : Problem) (document : Nat) (db : Database) : Database × Problem :=
  let p1 := p.downcast
  let p2 := { p1 with document := document, id := none }
  p2.save db

/-- `Problem.validate(condition)`: raise `GeneratedDataIncorrect` (modelled
as `none`) exactly when the condition fails. -/
def Problem.validateCondition (condition : Bool) : Option Unit :=
  if condition then some () else none

/-- Django's save-with-validation flow (forms and the admin call
`full_clean`, which runs `clean`, before `save`): persistence happens only
after validation passes. -/
def Problem.full_clean_and_save (p : Problem) (db : Database) :
    Except ValidationError (Database × Problem) :=
  match p.clean with
  | .error e => .error e
  | .ok q => .ok (q.save db)

/-- Map a fallible function over a list, succeeding only when every element
succeeds.  Used to express the result of the generation loop slot by
slot. -/
def optionMapAll (f : α → Option β) : List α → Option (List β)
  | [] => some []
  | a :: as =>
      match f a, optionMapAll f as with
      | some b, some bs => some (b :: bs)
      | _, _ => none

/-- The datum generated for one subproblem slot: re-seed with the slot's
seed string, then run the retry loop. -/
def slotResult (gen : Generator) (seed : Option String) (fuel : Nat) (i : Nat) :
    Option Datum :=
  (retryLoop gen fuel (seedOfString (subproblemSeed i seed))).1

/-- Auxiliary, not part of the source: a concrete generator used to
instantiate the generation theorems, rejecting every even random state and
advancing the state by one on each draw, so that a seeded even state is
rejected once and the retry accepted. -/
def sampleGen : Generator :=
  fun r => (if r % 2 = 0 then none else some [("x", "1")], r + 1)

/-- Auxiliary, not part of the source: a concrete problem entity of a
sample kind with two subproblems and no text override. -/
def witnessProblem : Problem :=
  { runtimeClass := RuntimeClass.kind "sample"
  , id := some 1
  , document := 1
  , content_type := RuntimeClass.kind "sample"
  , text := none
  , number_of_subproblems := 2
  , default_instruction := some "Value: @x"
  , default_solution := some "@x is the value"
  , generate := sampleGen }

/-- Auxiliary, not part of the source: an entity of a kind that provides
no default templates, with no text override. -/
def bareProblem : Problem :=
  { runtimeClass := RuntimeClass.kind "bare"
  , id := some 2
  , document := 1
  , content_type := RuntimeClass.kind "bare"
  , text := none
  , number_of_subproblems := 1
  , default_instruction := none
  , default_solution := none
  , generate := fun r => (some [], r) }

/-- Auxiliary, not part of the source: an instance of the abstract parent
class itself. -/
def baseProblem : Problem :=
  { runtimeClass := RuntimeClass.base
  , id := none
  , document := 1
  , content_type := RuntimeClass.base
  , text := none
  , number_of_subproblems := 1
  , default_instruction := none
  , default_solution := none
  , generate := fun r => (some [], r) }

/-- Auxiliary, not part of the source: a stored text override of kind
`k`. -/
def sampleText : ProblemText :=
  { content_type := RuntimeClass.kind "k"
  , instruction := some "I: @x"
  , solution := some "S: @x" }

/-- Auxiliary, not part of the source: a persisted entity with a text
override, used to instantiate the duplication theorem. -/
def docProblem : Problem :=
  { runtimeClass := RuntimeClass.kind "k"
  , id := some 3
  , document := 1
  , content_type := RuntimeClass.kind "k"
  , text := some sampleText
  , number_of_subproblems := 2
  , default_instruction := none
  , default_solution := none
  , generate := fun r => (some [], r) }

/-- Auxiliary, not part of the source: a one-row database. -/
def sampleDb : Database := { rows := [docProblem], nextId := 7 }

theorem munchId_snd_length (cs : List Char) : (munchId cs).2.length ≤ cs.length := by
  induction cs with
  | nil => simp [munchId]
  | cons c cs ih =>
      simp only [munchId]
      by_cases h : isIdChar c = true
      · simp only [if_pos h]
        exact Nat.le_succ_of_le ih
      · simp only [if_neg h]
        exact Nat.le_refl _

/-- The fuel is irrelevant as long as it covers the length of the
remaining input. -/
theorem substAux_congr (data : Datum) :
    ∀ (f1 : Nat) (l : List Char) (f2 : Nat),
      l.length ≤ f1 → l.length ≤ f2 → substAux data f1 l = substAux data f2 l := by
  intro f1
  induction f1 with
  | zero =>
      intro l f2 h1 _
      have hl : l = [] := List.length_eq_zero.mp (Nat.le_zero.mp h1)
      subst hl
      cases f2 <;> rfl
  | succ k ih =>
      intro l f2 h1 h2
      cases l with
      | nil => cases f2 <;> rfl
      | cons c cs =>
          cases f2 with
          | zero => simp at h2
          | succ m =>
              simp only [List.length_cons, Nat.succ_le_succ_iff] at h1 h2
              simp only [substAux]
              by_cases hc : c = '@'
              · simp only [if_pos hc]
                cases cs with
                | nil => rfl
                | cons d rest =>
                    simp only [List.length_cons] at h1 h2
                    by_cases hd : d = '@'
                    · simp only [if_pos hd]
                      rw [ih rest m (by omega) (by omega)]
                    · simp only [if_neg hd]
                      by_cases hb : d = braceOpen
                      · simp only [if_pos hb]
                        have hmu := munchId_snd_length rest
                        cases hm1 : (munchId rest).1 with
                        | nil => rfl
                        | cons e es =>
                            cases hm2 : (munchId rest).2 with
                            | nil => rfl
                            | cons b rest2 =>
                                rw [hm2] at hmu
                                simp only [List.length_cons] at hmu
                                by_cases hok : isIdStart e = true ∧ b = braceClose
                                · simp only [if_pos hok]
                                  cases data.lookup (String.mk (e :: es)) with
                                  | none => rfl
                                  | some v =>
                                      rw [ih rest2 m (by omega) (by omega)]
                                · simp only [if_neg hok]
                      · simp only [if_neg hb]
                        by_cases hs : isIdStart d = true
                        · simp only [if_pos hs]
                          have hmu := munchId_snd_length rest
                          cases data.lookup (String.mk (d :: (munchId rest).1)) with
                          | none => rfl
                          | some v =>
                              rw [ih ((munchId rest).2) m (by omega) (by omega)]
                        · simp only [if_neg hs]
              · simp only [if_neg hc]
                rw [ih cs m (by omega) (by omega)]

theorem isIdStart_ne_at {d : Char} (h : isIdStart d = true) : ¬ d = '@' := by
  intro e
  subst e
  exact absurd h (by decide)

theorem isIdStart_ne_brace {d : Char} (h : isIdStart d = true) : ¬ d = braceOpen := by
  intro e
  subst e
  exact absurd h (by decide)

/-- The maximal munch consumes exactly a block of identifier characters
followed by a non-identifier boundary. -/
theorem munchId_of_idChars :
    ∀ (xs rest : List Char), xs.all isIdChar = true → headNotIdChar rest = true →
      munchId (xs ++ rest) = (xs, rest) := by
  intro xs
  induction xs with
  | nil =>
      intro rest _ hrest
      cases rest with
      | nil => rfl
      | cons r rs =>
          have hr : isIdChar r = false := by
            simpa [headNotIdChar] using hrest
          simp [munchId, hr]
  | cons x xs ih =>
      intro rest hall hrest
      rw [List.all_cons, Bool.and_eq_true] at hall
      rw [List.cons_append]
      simp only [munchId, if_pos hall.1]
      rw [ih rest hall.2 hrest]

theorem substList_nil (data : Datum) : substList data [] = .ok [] := rfl

/-- A character other than the delimiter passes through unchanged. -/
theorem substList_cons_ne (data : Datum) {c : Char} (h : ¬ c = '@') (cs : List Char) :
    substList data (c :: cs) = (substList data cs).map (fun t => c :: t) := by
  simp only [substList, List.length_cons, substAux, if_neg h]

/-- The escape sequence `@@` produces a literal `@` and continues the scan
after it, with no substitution attempted. -/
theorem substList_escape (data : Datum) (rest : List Char) :
    substList data ('@' :: '@' :: rest) = (substList data rest).map (fun t => '@' :: t) := by
  simp only [substList, List.length_cons, substAux, if_pos rfl, if_true]
  rw [substAux_congr data (rest.length + 1) rest rest.length (by omega) (by omega)]

/-- A delimiter followed by an identifier: the scan munches the maximal
identifier, substitutes its binding, and continues after it; an unbound
identifier raises `KeyError` (`missingPlaceholder`). -/
theorem substList_at_ident (data : Datum) (d : Char) (tailChars rest : List Char)
    (hd : isIdStart d = true) (htail : tailChars.all isIdChar = true)
    (hrest : headNotIdChar rest = true) :
    substList data ('@' :: d :: (tailChars ++ rest)) =
      match data.lookup (String.mk (d :: tailChars)) with
      | some v => (substList data rest).map (fun t => v.data ++ t)
      | none => .error (.missingPlaceholder (String.mk (d :: tailChars))) := by
  have hmu := munchId_of_idChars tailChars rest htail hrest
  simp only [substList, List.length_cons, substAux, if_pos rfl, if_true,
    if_neg (isIdStart_ne_at hd), if_neg (isIdStart_ne_brace hd), if_pos hd, hmu]
  cases data.lookup (String.mk (d :: tailChars)) with
  | none => rfl
  | some v =>
      have hlen := munchId_snd_length (tailChars ++ rest)
      rw [hmu] at hlen
      rw [substAux_congr data ((tailChars ++ rest).length + 1) rest rest.length
        (by simp at hlen ⊢; omega) (by omega)]

/-- A delimiter followed by anything that opens no placeholder raises
`ValueError` (`invalidPlaceholder`). -/
theorem substList_at_invalid (data : Datum) (c : Char) (rest : List Char)
    (h1 : isIdStart c = false) (h2 : ¬ c = '@') (h3 : ¬ c = braceOpen) :
    substList data ('@' :: c :: rest) = .error .invalidPlaceholder := by
  have h1' : ¬ isIdStart c = true := by simp [h1]
  simp only [substList, List.length_cons, substAux, if_pos rfl, if_true, if_neg h2,
    if_neg h3, if_neg h1']

/-- A delimiter at the end of the template raises `ValueError`. -/
theorem substList_at_end (data : Datum) : substList data ['@'] = .error .invalidPlaceholder := rfl

/-- A block of non-delimiter characters passes through in front of the
scan of the remainder. -/
theorem substList_no_at (data : Datum) :
    ∀ (pre rest : List Char), pre.all (fun c => c != '@') = true →
      substList data (pre ++ rest) = (substList data rest).map (fun t => pre ++ t) := by
  intro pre
  induction pre with
  | nil =>
      intro rest _
      rw [List.nil_append]
      cases substList data rest <;> simp [Except.map]
  | cons c pre ih =>
      intro rest hall
      rw [List.all_cons, Bool.and_eq_true] at hall
      have hc : ¬ c = '@' := by simpa [bne_iff_ne] using hall.1
      rw [List.cons_append, substList_cons_ne data hc, ih rest hall.2]
      cases substList data rest <;> simp [Except.map]

/-- A template with no delimiter at all renders to itself, whatever the
data. -/
theorem substList_pure (data : Datum) (l : List Char)
    (h : l.all (fun c => c != '@') = true) : substList data l = .ok l := by
  have := substList_no_at data l [] h
  rw [List.append_nil] at this
  rw [this]
  simp [substList_nil, Except.map]

theorem optionMapAll_length (f : α → Option β) :
    ∀ (l : List α) (res : List β), optionMapAll f l = some res → res.length = l.length := by
  intro l
  induction l with
  | nil =>
      intro res h
      simp only [optionMapAll] at h
      cases h
      rfl
  | cons a as ih =>
      intro res h
      simp only [optionMapAll] at h
      cases hf : f a with
      | none => rw [hf] at h; cases h
      | some b =>
          rw [hf] at h
          cases hrec : optionMapAll f as with
          | none => rw [hrec] at h; cases h
          | some bs =>
              rw [hrec] at h
              cases h
              simp [ih bs hrec]

theorem optionMapAll_isSome (f : α → Option β) :
    ∀ l : List α, (∀ a ∈ l, (f a).isSome = true) → (optionMapAll f l).isSome = true := by
  intro l
  induction l with
  | nil =>
      intro _
      simp [optionMapAll]
  | cons a as ih =>
      intro h
      simp only [optionMapAll]
      have ha := h a (by simp)
      cases hf : f a with
      | none => rw [hf] at ha; cases ha
      | some b =>
          have hrec := ih (fun x hx => h x (by simp [hx]))
          cases hr : optionMapAll f as with
          | none => rw [hr] at hrec; cases hrec
          | some bs => simp

/-- The data produced by the generation loop is exactly the per-slot data,
slot by slot: each subproblem's datum depends only on its index, the seed
base, the generator and the fuel — in particular not on the state of the
random source when the loop starts, because every slot begins by
re-seeding. -/
theorem genDataLoop_fst (gen : Generator) (seed : Option String) (fuel : Nat) :
    ∀ (count i : Nat) (r : RNG),
      (genDataLoop gen seed fuel count i r).1 =
        optionMapAll (slotResult gen seed fuel) (List.range' i count) := by
  intro count
  induction count with
  | zero =>
      intro i r
      simp [genDataLoop, optionMapAll, List.range']
  | succ n ih =>
      intro i r
      rw [List.range'_succ]
      simp only [genDataLoop, optionMapAll]
      cases hr : retryLoop gen fuel (seedOfString (subproblemSeed i seed)) with
      | mk o r2 =>
          have hslot : slotResult gen seed fuel i = o := by
            simp [slotResult, hr]
          cases o with
          | none => simp [hslot]
          | some d =>
              simp only [hslot]
              cases hrec : genDataLoop gen seed fuel n (i + 1) r2 with
              | mk o2 r3 =>
                  have h2 : o2 = optionMapAll (slotResult gen seed fuel) (List.range' (i + 1) n) := by
                    have := ih (i + 1) r2
                    rw [hrec] at this
                    exact this
                  cases o2 with
                  | none => simp [← h2]
                  | some ds => simp [← h2]

/-- `_generate_data` slot by slot, at the level of `Problem`. -/
theorem generate_data_fst (p : Problem) (seed : Option String) (fuel : Nat) (r : RNG) :
    (p.generate_data seed fuel r).1 =
      optionMapAll (slotResult p.generate seed fuel) (List.range p.number_of_subproblems) := by
  rw [Problem.generate_data, genDataLoop_fst, List.range_eq_range']

/-- The outcome of `_generate_data` does not depend on the state of the
random source before the call. -/
theorem generate_data_fst_indep (p : Problem) (seed : Option String) (fuel : Nat)
    (r1 r2 : RNG) :
    (p.generate_data seed fuel r1).1 = (p.generate_data seed fuel r2).1 := by
  rw [generate_data_fst, generate_data_fst]

/-- On success, `_generate_data` returns one datum per subproblem. -/
theorem generate_data_length (p : Problem) (seed : Option String) (fuel : Nat) (r : RNG)
    (ds : List Datum) (h : (p.generate_data seed fuel r).1 = some ds) :
    ds.length = p.number_of_subproblems := by
  rw [generate_data_fst] at h
  have := optionMapAll_length _ _ _ h
  simpa using this

/-- Rendering preserves the number of subproblems. -/
theorem render_length (t : ProblemText) :
    ∀ (data : List Datum) (res : List RenderedText),
      t.render data = .ok res → res.length = data.length := by
  intro data
  induction data with
  | nil =>
      intro res h
      simp only [ProblemText.render] at h
      cases h
      rfl
  | cons datum rest ih =>
      intro res h
      simp only [ProblemText.render] at h
      cases h1 : substituteOpt datum t.instruction with
      | error e => rw [h1] at h; cases h
      | ok instr =>
          rw [h1] at h
          cases h2 : substituteOpt datum t.solution with
          | error e => rw [h2] at h; cases h
          | ok sol =>
              rw [h2] at h
              cases h3 : t.render rest with
              | error e => rw [h3] at h; cases h
              | ok tail =>
                  rw [h3] at h
                  cases h
                  simp [ih tail h3]

/-- C1: for a fixed entity configuration and a fixed student, the visible
outcome of `student_text(student)` is the same whatever the state of the
global random source when the call starts — hence two calls, at any two
moments, return identical sequences of rendered instruction/solution
pairs, the kind's `generate` being (by construction of the embedding) a
pure function of the seeded random source. -/
theorem student_text_deterministic (p : Problem) (student : Student) (fuel : Nat)
    (r1 r2 : RNG) :
    (p.student_text student fuel r1).1 = (p.student_text student fuel r2).1 := by
  show ((p.generate_data (some (p.student_seed student)) fuel r1).1.map
      (fun data => p.render_text data)) =
    ((p.generate_data (some (p.student_seed student)) fuel r2).1.map
      (fun data => p.render_text data))
  rw [generate_data_fst_indep p (some (p.student_seed student)) fuel r1 r2]

/-- The outcome of `example_text` does not depend on the state of the
random source before the call. -/
theorem example_text_fst_indep (p : Problem) (fuel : Nat) (r1 r2 : RNG) :
    (p.example_text fuel r1).1 = (p.example_text fuel r2).1 := by
  show ((p.generate_data none fuel r1).1.map (fun data => p.render_text data)) =
    ((p.generate_data none fuel r2).1.map (fun data => p.render_text data))
  rw [generate_data_fst_indep p none fuel r1 r2]

/-- C2 (counterexample): the claim "for some entity whose generator draws
from the random source, two calls to example_text() may return different
output" is false: there is no entity, no fuel and no incoming random state
for which a second call (run on the random state left by the first)
differs from the first, because `_generate_data(None)` re-seeds the source
with the literal string `f"{i}-None"` for every subproblem. -/
theorem example_mode_unpredictable_false :
    ¬ ∃ (p : Problem) (fuel : Nat) (r : RNG),
        (p.example_text fuel r).1 ≠ (p.example_text fuel ((p.example_text fuel r).2)).1 := by
  rintro ⟨p, fuel, r, h⟩
  exact h (example_text_fst_indep p fuel r ((p.example_text fuel r).2))

/-- C2 (amended): in example mode (`seed_base = None`) the random source is
seeded deterministically with the string `f"{i}-None"` per subproblem, so
`example_text()` is reproducible: a repeated call returns the same
output. -/
theorem example_text_reproducible (p : Problem) (fuel : Nat) (r : RNG) :
    (p.example_text fuel r).1 = (p.example_text fuel ((p.example_text fuel r).2)).1 :=
  example_text_fst_indep p fuel r ((p.example_text fuel r).2)

/-- C3: the random source is re-seeded with the concatenation of the
subproblem index and the seed base exactly when a new subproblem slot
starts: (1) after a rejected draw the retry continues from the random
state the generator left, with no re-seeding; (2) the generated data is,
slot by slot, a function of the slot index and the seed base alone (each
slot starts by re-seeding with `f"{i}-{seed}"`, so neither the incoming
random state nor earlier slots' retries influence it); (3) the
`GeneratedDataIncorrect` signal never surfaces: whenever every slot
accepts within the available fuel, the generation call succeeds. -/
theorem generation_reseed_retry_nosurface
    (gen : Generator) (seed : Option String) (fuel : Nat) (r r2 : RNG)
    (hrej : gen r = (none, r2)) :
    retryLoop gen (fuel + 1) r = retryLoop gen fuel r2 ∧
    (∀ (n : Nat) (r0 : RNG),
        (genDataLoop gen seed fuel n 0 r0).1 =
          optionMapAll
            (fun i =>
              (retryLoop gen fuel (seedOfString (toString i ++ "-" ++ pyStrOfOption seed))).1)
            (List.range n)) ∧
    (∀ (n : Nat) (r0 : RNG),
        (∀ i, i < n →
          (retryLoop gen fuel
            (seedOfString (toString i ++ "-" ++ pyStrOfOption seed))).1.isSome = true) →
        (genDataLoop gen seed fuel n 0 r0).1.isSome = true) := by
  refine ⟨?_, ?_, ?_⟩
  · simp [retryLoop, hrej]
  · intro n r0
    rw [genDataLoop_fst, ← List.range_eq_range']
    rfl
  · intro n r0 hall
    rw [genDataLoop_fst, ← List.range_eq_range']
    apply optionMapAll_isSome
    intro i hi
    exact hall i (List.mem_range.mp hi)

theorem generation_reseed_retry_nosurface_witness :
    sampleGen 0 = (none, 1) ∧
    (retryLoop sampleGen (2 + 1) 0 = retryLoop sampleGen 2 1 ∧
      (∀ (n : Nat) (r0 : RNG),
          (genDataLoop sampleGen (some "s") 2 n 0 r0).1 =
            optionMapAll
              (fun i =>
                (retryLoop sampleGen 2
                  (seedOfString (toString i ++ "-" ++ pyStrOfOption (some "s")))).1)
              (List.range n)) ∧
      (∀ (n : Nat) (r0 : RNG),
          (∀ i, i < n →
            (retryLoop sampleGen 2
              (seedOfString (toString i ++ "-" ++ pyStrOfOption (some "s")))).1.isSome = true) →
          (genDataLoop sampleGen (some "s") 2 n 0 r0).1.isSome = true)) :=
  ⟨rfl, generation_reseed_retry_nosurface sampleGen (some "s") 2 0 1 rfl⟩

/-- C4: whenever `student_text` completes (the generation loop finishes
within the fuel and rendering succeeds), it returns exactly one rendered
pair per subproblem, in subproblem order — in particular a generator that
rejects some of its draws still contributes exactly one datum per slot. -/
theorem student_text_length (p : Problem) (student : Student) (fuel : Nat) (r : RNG)
    (res : List RenderedText)
    (h : (p.student_text student fuel r).1 = some (.ok res)) :
    res.length = p.number_of_subproblems := by
  have h' : ((p.generate_data (some (p.student_seed student)) fuel r).1.map
      (fun data => p.render_text data)) = some (.ok res) := h
  cases hg : (p.generate_data (some (p.student_seed student)) fuel r).1 with
  | none => rw [hg] at h'; cases h'
  | some ds =>
      rw [hg, Option.map_some'] at h'
      have hrender : p.render_text ds = .ok res := Option.some.inj h'
      have hlen1 := generate_data_length p (some (p.student_seed student)) fuel r ds hg
      have hlen2 : res.length = ds.length := by
        rw [Problem.render_text] at hrender
        cases hpt : p.text with
        | none => rw [hpt] at hrender; exact render_length p.default_text ds res hrender
        | some t => rw [hpt] at hrender; exact render_length t ds res hrender
      rw [hlen2, hlen1]

theorem student_text_length_witness :
    (witnessProblem.student_text ⟨some 5⟩ 2 0).1 =
      some (.ok [ { instruction := "Value: 1", solution := "1 is the value" }
                , { instruction := "Value: 1", solution := "1 is the value" } ]) ∧
    ([ ({ instruction := "Value: 1", solution := "1 is the value" } : RenderedText)
     , { instruction := "Value: 1", solution := "1 is the value" } ].length =
      witnessProblem.number_of_subproblems) :=
  ⟨rfl,
    student_text_length witnessProblem ⟨some 5⟩ 2 0
      [ { instruction := "Value: 1", solution := "1 is the value" }
      , { instruction := "Value: 1", solution := "1 is the value" } ] rfl⟩

/-- C5: rendering uses the entity's explicit text override when one is
set; otherwise it falls back to the kind's default text; and when neither
an override nor kind defaults exist, rendering any nonempty data fails
with the no-template error. -/
theorem render_text_resolution (p : Problem) (data : List Datum) :
    (∀ t, p.text = some t → p.render_text data = t.render data) ∧
    (p.text = none → p.render_text data = p.default_text.render data) ∧
    (p.text = none → p.default_instruction = none → p.default_solution = none →
      data ≠ [] → p.render_text data = .error .noTemplate) := by
  refine ⟨?_, ?_, ?_⟩
  · intro t ht
    simp [Problem.render_text, ht]
  · intro ht
    simp [Problem.render_text, ht]
  · intro ht hdi hds hne
    cases data with
    | nil => exact absurd rfl hne
    | cons d rest =>
        simp [Problem.render_text, ht, Problem.default_text, ProblemText.render, hdi,
          substituteOpt]

theorem render_text_resolution_witness :
    bareProblem.render_text [[]] = .error .noTemplate :=
  (render_text_resolution bareProblem [[]]).2.2 rfl rfl rfl (by decide)

/-- C6: validation recomputes the content type from the concrete runtime
class and never trusts the caller-supplied one — `clean` is insensitive to
the stored `content_type`, and on success the only change it makes is
setting `content_type` from the runtime class; it fails with a
`ValidationError` exactly when the entity is of the abstract base kind or
a set text override's content type differs from the recomputed one; and
under the validated save flow an invalid entity is rejected before any
persistence happens. -/
theorem clean_validation (p : Problem) :
    ((∃ e, p.clean = .error e) ↔
        (p.runtimeClass = RuntimeClass.base ∨
          ∃ t, p.text = some t ∧ t.content_type ≠ getForModel p.runtimeClass)) ∧
    (∀ x, Problem.clean { p with content_type := x } = p.clean) ∧
    (∀ q, p.clean = .ok q → q = { p with content_type := getForModel p.runtimeClass }) ∧
    (∀ (db : Database) (e : ValidationError),
      p.clean = .error e → p.full_clean_and_save db = .error e) := by
  refine ⟨⟨?_, ?_⟩, ?_, ?_, ?_⟩
  · rintro ⟨e, he⟩
    by_cases hb : p.runtimeClass = RuntimeClass.base
    · exact Or.inl hb
    · right
      simp only [Problem.clean, if_neg hb] at he
      cases hpt : p.text with
      | none =>
          simp only [hpt] at he
          exact Except.noConfusion he
      | some t =>
          simp only [hpt] at he
          by_cases hct : getForModel p.runtimeClass ≠ t.content_type
          · exact ⟨t, rfl, Ne.symm hct⟩
          · rw [if_neg hct] at he
            exact Except.noConfusion he
  · intro hor
    by_cases hb : p.runtimeClass = RuntimeClass.base
    · refine ⟨{ message := "Problems must have a non-trivial generator" }, ?_⟩
      simp only [Problem.clean, if_pos hb]
    · rcases hor with hb2 | ⟨t, hpt, hct⟩
      · exact absurd hb2 hb
      · refine ⟨{ message := "Generators of the problem and its text must match" }, ?_⟩
        simp only [Problem.clean, if_neg hb, hpt]
        rw [if_pos (Ne.symm hct)]
  · intro x
    rfl
  · intro q hq
    by_cases hb : p.runtimeClass = RuntimeClass.base
    · simp only [Problem.clean, if_pos hb] at hq
      exact Except.noConfusion hq
    · simp only [Problem.clean, if_neg hb] at hq
      cases hpt : p.text with
      | none =>
          simp only [hpt] at hq
          exact (Except.ok.inj hq).symm
      | some t =>
          simp only [hpt] at hq
          by_cases hct : getForModel p.runtimeClass ≠ t.content_type
          · rw [if_pos hct] at hq
            exact Except.noConfusion hq
          · rw [if_neg hct] at hq
            exact (Except.ok.inj hq).symm
  · intro db e he
    simp only [Problem.full_clean_and_save, he]

theorem clean_validation_witness :
    ∃ e, baseProblem.clean = Except.error e :=
  (clean_validation baseProblem).1.mpr (Or.inl rfl)

/-- C7: duplicating an entity into a target document creates a new row
with a fresh identity, attached to the target document, with the same
kind, the same text reference and the same subproblem count, appended
after the untouched existing rows (in particular the source row is
unchanged; no rendered text exists to copy, since none is stored). -/
theorem copy_spec (p : Problem) (db : Database) (doc2 : Nat) (i : Nat)
    (hwf : p.content_type = getForModel p.runtimeClass)
    (hid : p.id = some i) (hlt : i < db.nextId) :
    (p.copy doc2 db).2.id = some db.nextId ∧
    (p.copy doc2 db).2.id ≠ p.id ∧
    (p.copy doc2 db).2.document = doc2 ∧
    (p.copy doc2 db).2.runtimeClass = p.runtimeClass ∧
    (p.copy doc2 db).2.content_type = p.content_type ∧
    (p.copy doc2 db).2.text = p.text ∧
    (p.copy doc2 db).2.number_of_subproblems = p.number_of_subproblems ∧
    (p.copy doc2 db).1.rows = db.rows ++ [(p.copy doc2 db).2] := by
  have hdc : p.downcast = p := by
    rw [Problem.downcast, if_pos hwf]
  have hcopy : p.copy doc2 db =
      (Database.mk (db.rows ++ [{ p with id := some db.nextId, document := doc2, content_type := getForModel p.runtimeClass }]) (db.nextId + 1), { p with id := some db.nextId, document := doc2, content_type := getForModel p.runtimeClass }) := by
    simp only [Problem.copy, Problem.save, hdc]
  rw [hcopy]
  refine ⟨rfl, ?_, rfl, rfl, hwf.symm, rfl, rfl, rfl⟩
  rw [hid]
  intro h
  have := Option.some.inj h
  omega

theorem copy_spec_witness :
    (docProblem.copy 9 sampleDb).2.id = some sampleDb.nextId ∧
    (docProblem.copy 9 sampleDb).2.id ≠ docProblem.id ∧
    (docProblem.copy 9 sampleDb).2.document = 9 ∧
    (docProblem.copy 9 sampleDb).2.runtimeClass = docProblem.runtimeClass ∧
    (docProblem.copy 9 sampleDb).2.content_type = docProblem.content_type ∧
    (docProblem.copy 9 sampleDb).2.text = docProblem.text ∧
    (docProblem.copy 9 sampleDb).2.number_of_subproblems = docProblem.number_of_subproblems ∧
    (docProblem.copy 9 sampleDb).1.rows = sampleDb.rows ++ [(docProblem.copy 9 sampleDb).2] :=
  copy_spec docProblem sampleDb 9 3 rfl rfl (by decide)

/-- C8: rendering substitutes a bound `@identifier` occurrence with the
value bound to the identifier and continues after it, for any data
binding the munched identifier; and on the concrete round-trip template,
with an extra unused key supplied, both the instruction and the solution
come back with every occurrence substituted and the unused key ignored. -/
theorem render_substitutes (data : Datum) (name val : String) (rest : List Char)
    (h1 : isValidIdent name = true) (h2 : data.lookup name = some val)
    (h3 : headNotIdChar rest = true) :
    (∀ ct : RuntimeClass,
      ProblemText.render
          { content_type := ct
          , instruction := some "Value: @x"
          , solution := some "@x is the value" }
          [[("x", "1"), ("unused", "7")]] =
        .ok [{ instruction := "Value: 1", solution := "1 is the value" }]) ∧
    substList data ('@' :: (name.data ++ rest)) =
      (substList data rest).map (fun t => val.data ++ t) := by
  refine ⟨fun ct => rfl, ?_⟩
  cases hn : name.data with
  | nil => simp [isValidIdent, hn] at h1
  | cons c cs =>
      have hc : isIdStart c = true ∧ cs.all isIdChar = true := by
        simpa [isValidIdent, hn, Bool.and_eq_true] using h1
      have hmk : String.mk (c :: cs) = name := by rw [← hn]
      have hident := substList_at_ident data c cs rest hc.1 hc.2 h3
      rw [hmk] at hident
      simp only [h2] at hident
      rw [List.cons_append]
      exact hident

theorem render_substitutes_witness :
    isValidIdent "x" = true ∧
    ([("x", "1")] : Datum).lookup "x" = some "1" ∧
    headNotIdChar [' '] = true ∧
    substList [("x", "1")] ('@' :: ("x".data ++ [' '])) =
      (substList [("x", "1")] [' ']).map (fun t => "1".data ++ t) :=
  ⟨by decide, by decide, by decide,
    (render_substitutes [("x", "1")] "x" "1" [' '] (by decide) (by decide) (by decide)).2⟩

/-- C9 (counterexample): a literal `@` not followed by a valid identifier
is not passed through unchanged — on the template `"Price: @5"` the
substitute call raises `ValueError` (invalid placeholder) instead of
returning the template text. -/
theorem at_passthrough_false :
    substituteStr [] "Price: @5" = .error .invalidPlaceholder ∧
    ¬ substituteStr [] "Price: @5" = .ok "Price: @5" :=
  ⟨by decide, by decide⟩

/-- C9 (amended): the sequence `@@` is an escape rendering a literal `@`
with no substitution attempted (in particular `"Price: @@5"` renders to
`"Price: @5"` for any data), while a `@` not followed by a valid
identifier start (and being neither a second `@` nor an opening brace),
or a trailing `@`, makes the substitute call fail with the
invalid-placeholder `ValueError` rather than passing through. -/
theorem escape_and_invalid (data : Datum) (c : Char) (rest : List Char)
    (hc1 : isIdStart c = false) (hc2 : ¬ c = '@') (hc3 : ¬ c = braceOpen) :
    (substList data ('@' :: '@' :: rest) = (substList data rest).map (fun t => '@' :: t)) ∧
    (substituteStr data "Price: @@5" = .ok "Price: @5") ∧
    (substList data ('@' :: c :: rest) = .error .invalidPlaceholder) ∧
    (substList data ['@'] = .error .invalidPlaceholder) := by
  refine ⟨substList_escape data rest, ?_, substList_at_invalid data c rest hc1 hc2 hc3,
    substList_at_end data⟩
  have hpre : ("Price: ".data).all (fun ch => ch != '@') = true := by decide
  have h5 : ("5".data).all (fun ch => ch != '@') = true := by decide
  simp only [substituteStr]
  show (substList data ("Price: ".data ++ ('@' :: '@' :: "5".data))).map String.mk =
    .ok "Price: @5"
  rw [substList_no_at data _ _ hpre, substList_escape, substList_pure data _ h5]
  rfl

theorem escape_and_invalid_witness :
    isIdStart '5' = false ∧
    ((substList [] ('@' :: '@' :: []) = (substList [] []).map (fun t => '@' :: t)) ∧
      (substituteStr [] "Price: @@5" = .ok "Price: @5") ∧
      (substList [] ('@' :: '5' :: []) = .error .invalidPlaceholder) ∧
      (substList [] ['@'] = .error .invalidPlaceholder)) :=
  ⟨by decide, escape_and_invalid [] '5' [] (by decide) (by decide) (by decide)⟩

/-- C10: a template containing a placeholder `@name` whose identifier has
no corresponding key in the supplied datum makes the substitute call —
and hence the render call using that template as its instruction — fail
with the missing-placeholder error (`KeyError`), carrying the identifier's
name. -/
theorem render_missing_placeholder (d : Datum) (pre : List Char) (name : String)
    (post : List Char)
    (hpre : pre.all (fun ch => ch != '@') = true)
    (hname : isValidIdent name = true)
    (hmiss : d.lookup name = none)
    (hpost : headNotIdChar post = true) :
    substituteStr d (String.mk (pre ++ '@' :: (name.data ++ post))) =
      .error (.missingPlaceholder name) ∧
    (∀ (ct : RuntimeClass) (sol : Option String) (ds : List Datum),
      ProblemText.render
          { content_type := ct
          , instruction := some (String.mk (pre ++ '@' :: (name.data ++ post)))
          , solution := sol }
          (d :: ds) =
        .error (.missingPlaceholder name)) := by
  have hlist : substList d (pre ++ '@' :: (name.data ++ post)) =
      .error (.missingPlaceholder name) := by
    cases hn : name.data with
    | nil => simp [isValidIdent, hn] at hname
    | cons c cs =>
        have hc : isIdStart c = true ∧ cs.all isIdChar = true := by
          simpa [isValidIdent, hn, Bool.and_eq_true] using hname
        have hmk : String.mk (c :: cs) = name := by rw [← hn]
        have hident := substList_at_ident d c cs post hc.1 hc.2 hpost
        rw [hmk] at hident
        simp only [hmiss] at hident
        rw [substList_no_at d pre _ hpre, List.cons_append, hident]
        rfl
  have hstr : substituteStr d (String.mk (pre ++ '@' :: (name.data ++ post))) =
      .error (.missingPlaceholder name) := by
    simp only [substituteStr]
    rw [hlist]
    rfl
  refine ⟨hstr, ?_⟩
  intro ct sol ds
  simp only [ProblemText.render, substituteOpt, hstr]

theorem render_missing_placeholder_witness :
    substituteStr [("x", "1")] (String.mk ("Hi ".data ++ '@' :: ("unknown".data ++ "!".data))) =
      .error (.missingPlaceholder "unknown") :=
  (render_missing_placeholder [("x", "1")] "Hi ".data "unknown" "!".data
    (by decide) (by decide) (by decide) (by decide)).1

end Nadlogar
